import Mathlib

/-!
# Verification of the pagination retry core (`src/api-handler/src/App.tsx`)

Shallow embedding, in Lean 4, of the retry/backoff/token-bucket/queue core of
the `App` component.  Conventions of the embedding:

* JavaScript floating-point numbers (token counts, timestamps in milliseconds,
  delays) are modelled as rationals (`ℚ`); every arithmetic operation the
  source performs (`Math.min`, `+`, `-`, `*`, `/ 1000`, `Math.pow(2, n)`) is
  exact on the inputs proved about here, so no rounding is lost.
* `Math.random()` is modelled as an explicit parameter `rand : ℚ` with
  `0 ≤ rand < 1` supplied at each call site.
* React state updates (`setX(prev => ...)`) are modelled by threading the new
  value through the step function in program order (React applies queued
  functional updaters in order, each receiving the previous result).
  Crucially, a *read* of a state variable inside an event handler sees the
  render-time closure value, not the pending updates: `getRetryToken`'s
  `return retryState.tokens >= 1` reads the closure value while its
  `setRetryState` updater refills and decrements.  The embedding keeps that
  distinction (`closureTokens` below).
* Purely presentational state (`loading`, `error`, `fetchStatus` strings,
  `isPageDataExpanded`, `actualRetryRate`) is omitted: the source only
  writes display text there and no claim mentions it, except that the
  absence of any terminal-error write is itself part of what is proved.
-/

/-! ## Configuration constants (App.tsx lines 66-71) -/

def INITIAL_RETRY_DELAY : ℚ := 1000

def MAX_RETRY_DELAY : ℚ := 32000

def MAX_RETRIES : ℕ := 5

def TOKEN_BUCKET_RATE : ℚ := 2

def TOKEN_BUCKET_SIZE : ℚ := 10

/-! ## Token bucket (interface `RetryState`, lines 73-78, 99-104, 135-179) -/

/-- `RetryState` from App.tsx lines 73-78: the token-bucket state plus the
display counter of granted permits. -/
structure RetryState where
  tokens : ℚ
  lastRefill : ℚ
  retryCount : ℕ
  lastBackoffDelay : ℚ
deriving Repr, DecidableEq

/-- The periodic refill effect (lines 135-155): every tick recomputes
`tokens = min(TOKEN_BUCKET_SIZE, tokens + elapsedSeconds * TOKEN_BUCKET_RATE)`
and stamps `lastRefill = now`.  `now` is the current time in milliseconds. -/
def refillTick (now : ℚ) (prev : RetryState) : RetryState :=
  let timePassed := (now - prev.lastRefill) / 1000
  let tokensToAdd := timePassed * TOKEN_BUCKET_RATE
  let newTokens := min TOKEN_BUCKET_SIZE (prev.tokens + tokensToAdd)
  { prev with tokens := newTokens, lastRefill := now }

/-- The functional updater passed to `setRetryState` inside `getRetryToken`
(lines 160-176): implicit refill, then if the refilled count is at least 1,
decrement by 1, stamp `lastRefill`, and bump the granted-permit counter;
otherwise return `prev` unchanged (the refill is not persisted either). -/
def getRetryTokenUpdate (now : ℚ) (prev : RetryState) : RetryState :=
  let timePassed := (now - prev.lastRefill) / 1000
  let newTokens := min TOKEN_BUCKET_SIZE (prev.tokens + timePassed * TOKEN_BUCKET_RATE)
  if 1 ≤ newTokens then
    { prev with tokens := newTokens - 1, lastRefill := now,
                retryCount := prev.retryCount + 1 }
  else
    prev

/-- One call to `getRetryToken` (lines 158-179): the state update above is
queued, and the function returns `retryState.tokens >= 1` — a read of the
*closure* value of `retryState`, i.e. the state as it was when the call
started, not the refilled value the updater computed. -/
def getRetryToken (now : ℚ) (st : RetryState) : RetryState × Bool :=
  (getRetryTokenUpdate now st, decide (1 ≤ st.tokens))

/-! ## Backoff calculator (lines 182-187) -/

/-- `calculateBackoff` (lines 182-187) with the `Math.random()` draw made an
explicit argument: `exponentialPart = INITIAL_RETRY_DELAY * 2^retryCount`,
capped at `MAX_RETRY_DELAY`, scaled by the random draw (full jitter). -/
def calculateBackoff (rand : ℚ) (retryCount : ℕ) : ℚ :=
  let exponentialPart := INITIAL_RETRY_DELAY * 2 ^ retryCount
  let cappedDelay := min exponentialPart MAX_RETRY_DELAY
  rand * cappedDelay

/-! ## Retry queue (lines 81-85, 108-114) -/

/-- `QueuedRetry` (lines 81-85). -/
structure QueuedRetry where
  pageNum : ℕ
  retryCount : ℕ
  queuedAt : ℚ
deriving Repr, DecidableEq

/-- `addToRetryQueue` (lines 108-110): `setRetryQueue(prev => [...prev, retry])`
— a plain append at the tail, with no removal of existing entries. -/
def addToRetryQueue (q : List QueuedRetry) (retry : QueuedRetry) : List QueuedRetry :=
  q ++ [retry]

/-- `removeFromRetryQueue` (lines 112-114): filters out every entry whose
`pageNum` matches. -/
def removeFromRetryQueue (q : List QueuedRetry) (pageNum : ℕ) : List QueuedRetry :=
  q.filter (fun retry => retry.pageNum ≠ pageNum)

/-! ## Response and page-record data model (lines 16-63) -/

/-- `Article` (lines 16-20). -/
structure Article where
  id : ℕ
  title : String
  content : String
deriving Repr, DecidableEq

/-- `ApiResponse` (lines 22-27). -/
structure ApiResponse where
  data : List Article
  is_next : Bool
  page : ℕ
  per_page : ℕ
deriving Repr, DecidableEq

/-- The parsed JSON body `ApiResponse | ErrorResponse`: the source
discriminates with `'error' in data`. -/
inductive Content where
  | api (resp : ApiResponse)
  | err (msg : String)
deriving Repr, DecidableEq

/-- Per-page status values `'success' | 'error'`. -/
inductive PageStatus where
  | success
  | error
deriving Repr, DecidableEq

/-- `'error' in data ? 'error' : 'success'`. -/
def contentStatus : Content → PageStatus
  | .err _ => .error
  | .api _ => .success

/-- `PageAttempt` (lines 33-38), one row of the `attemptedPages` log. -/
structure PageAttempt where
  pageNum : ℕ
  status : PageStatus
  timestamp : ℚ
  statusCode : Option ℕ
deriving Repr, DecidableEq

/-- `PageData` (lines 40-46), the per-page record kept in the `pageData` map. -/
structure PageData where
  pageNum : ℕ
  content : Content
  status : PageStatus
  attempts : ℕ
  lastAttemptTime : Option ℚ
deriving Repr, DecidableEq

/-- `RetryMetrics` (lines 48-54), one row of the append-only metrics log. -/
structure RetryMetrics where
  timestamp : ℚ
  delay : ℚ
  pageNum : ℕ
  attempt : ℕ
  statusCode : Option ℕ
deriving Repr, DecidableEq

/-- `error.message.includes('Rate limited')` (line 318). -/
def containsRateLimited (s : String) : Bool :=
  decide (("Rate limited".toList) <:+: s.toList)

/-- The functional updater passed to `setPageData` (lines 293-303): overwrite
the entry for `pageNum`, with `attempts = (prev.get(pageNum)?.attempts || 0) + 1`. -/
def setPageData (prev : ℕ → Option PageData) (pageNum : ℕ) (data : Content)
    (now : ℚ) : ℕ → Option PageData :=
  fun k =>
    if k = pageNum then
      some { pageNum := pageNum
             content := data
             status := contentStatus data
             attempts := (match prev pageNum with
                          | some pd => pd.attempts
                          | none => 0) + 1
             lastAttemptTime := some now }
    else
      prev k

/-! ## The component state touched by the fetch/retry logic -/

/-- The slice of the `App` component state that the fetch/retry core reads and
writes (lines 88-106).  Display-only state is omitted (see the header). -/
structure World where
  articles : List Article
  retryQueue : List QueuedRetry
  hasNextPage : Bool
  attemptedPages : List PageAttempt
  highestPageAttempted : ℕ
  pageData : ℕ → Option PageData
  retryMetrics : List RetryMetrics
  retryState : RetryState

/-- How the awaited `fetchWithTimeout`/`response.json()` pair resolves, from
the controller's point of view: either a parsed body with the transport status
code, or a thrown error (abort/timeout or network failure) carrying
`error.name === 'AbortError'` as a flag and the message text. -/
inductive FetchOutcome where
  | response (payload : Content) (statusCode : ℕ)
  | thrown (isTimeout : Bool) (msg : String)
deriving Repr, DecidableEq

/-! ## Page fetch controller (`fetchArticles`, lines 236-351) -/

/-- The `catch` block of `fetchArticles` (lines 315-347).  `closureTokens` is
the render-time value of `retryState.tokens` captured by this invocation's
closure: the `getRetryToken()` call at line 331 returns `closureTokens >= 1`
even though its queued updater operates on the threaded state.  JavaScript's
`||` short-circuits, so that updater only runs when `isRateLimited` is false.
Returns the new state, the `attempted` flag handed through from the caller,
and the retry scheduled by `setTimeout` (page, next retry count, delay), if
any. -/
def catchBlock (w : World) (closureTokens : ℚ) (pageNum retryCount : ℕ)
    (now rand2 : ℚ) (isTimeout : Bool) (msg : String) :
    World × Bool × Option (ℕ × ℕ × ℚ) :=
  let isRateLimited := containsRateLimited msg
  let failCode : ℕ := if isTimeout then 408 else if isRateLimited then 429 else 500
  let w1 := { w with attemptedPages :=
                w.attemptedPages ++ [⟨pageNum, .error, now, some failCode⟩] }
  if retryCount < MAX_RETRIES then
    let retryDelay := calculateBackoff rand2 retryCount
    if isRateLimited then
      ({ w1 with retryQueue := addToRetryQueue w1.retryQueue ⟨pageNum, retryCount, now⟩ },
       true, none)
    else
      let st := getRetryTokenUpdate now w1.retryState
      if 1 ≤ closureTokens then
        ({ w1 with retryState := st }, true, some (pageNum, retryCount + 1, retryDelay))
      else
        ({ w1 with retryState := st,
                   retryQueue := addToRetryQueue w1.retryQueue ⟨pageNum, retryCount, now⟩ },
         true, none)
  else
    (w1, true, none)

/-- One invocation of `fetchArticles(pageNum, retryCount)` (lines 236-351),
resolved against a given outcome of the awaited network call and the two
`Math.random()` draws (line 262 and line 329).  Returns the new component
state, whether the HTTP request was actually issued (`false` for the early
rate-limited return at line 255), and any retry scheduled via `setTimeout`. -/
def fetchArticlesStep (w : World) (pageNum retryCount : ℕ) (now rand1 rand2 : ℚ)
    (outcome : FetchOutcome) : World × Bool × Option (ℕ × ℕ × ℚ) :=
  let closureTokens := w.retryState.tokens
  if retryCount > 0 ∧ ¬ 1 ≤ closureTokens then
    -- lines 241-256: getRetryToken() queued its updater and reported denial;
    -- the attempt is queued with its current retryCount and the call returns
    ({ w with retryState := getRetryTokenUpdate now w.retryState,
              retryQueue := addToRetryQueue w.retryQueue ⟨pageNum, retryCount, now⟩ },
     false, none)
  else
    let st1 := if retryCount > 0 then getRetryTokenUpdate now w.retryState else w.retryState
    let w1 := { w with retryState := st1,
                       highestPageAttempted := max w.highestPageAttempted pageNum }
    let retryDelay := calculateBackoff rand1 retryCount
    match outcome with
    | .thrown isTimeout msg =>
      -- the await threw before lines 276-303 could run: straight to catch
      catchBlock w1 closureTokens pageNum retryCount now rand2 isTimeout msg
    | .response payload statusCode =>
      let status := contentStatus payload
      let w2 := { w1 with
        attemptedPages := w1.attemptedPages ++ [⟨pageNum, status, now, some statusCode⟩],
        retryMetrics :=
          w1.retryMetrics ++ [⟨now, retryDelay, pageNum, retryCount + 1, some statusCode⟩],
        pageData := setPageData w1.pageData pageNum payload now }
      match payload with
      | .err msg =>
        -- line 306: `throw new Error(data.error)` lands in the catch block
        catchBlock w2 closureTokens pageNum retryCount now rand2 false msg
      | .api resp =>
        ({ w2 with articles := resp.data,
                   hasNextPage := resp.is_next,
                   retryQueue := removeFromRetryQueue w2.retryQueue pageNum },
         true, none)

/-! ## Queue drainer (`processQueue`, lines 207-233) -/

/-- One tick of the queue-draining interval (lines 209-229): if the queue is
non-empty and the (render-time) token count is at least 1, the head entry is
removed, a metric records the time it spent queued as `delay`, and
`fetchArticles(pageNum, retryCount)` is called with the stored retry count
unchanged — returned here as data `(pageNum, retryCount)`. -/
def processQueueTick (w : World) (now : ℚ) : World × Option (ℕ × ℕ) :=
  match w.retryQueue with
  | [] => (w, none)
  | nextRetry :: _ =>
    if 1 ≤ w.retryState.tokens then
      let queueTime := now - nextRetry.queuedAt
      ({ w with
          retryQueue := removeFromRetryQueue w.retryQueue nextRetry.pageNum,
          retryMetrics := w.retryMetrics ++
            [⟨now, queueTime, nextRetry.pageNum, nextRetry.retryCount + 1, some 429⟩] },
       some (nextRetry.pageNum, nextRetry.retryCount))
    else
      (w, none)

/-! ## Reachable token-bucket states and concrete scenario states -/

/-- Token-bucket states reachable from the initial state (lines 99-104) by any
interleaving of refill ticks and consume calls, with time moving forward
(`Date.now()` is non-decreasing, so every operation sees
`lastRefill ≤ now`). -/
inductive ReachableRS : RetryState → Prop where
  | init (t : ℚ) :
      ReachableRS { tokens := TOKEN_BUCKET_SIZE, lastRefill := t,
                    retryCount := 0, lastBackoffDelay := 0 }
  | refill {s : RetryState} (now : ℚ) (h : s.lastRefill ≤ now)
      (hs : ReachableRS s) : ReachableRS (refillTick now s)
  | consume {s : RetryState} (now : ℚ) (h : s.lastRefill ≤ now)
      (hs : ReachableRS s) : ReachableRS (getRetryTokenUpdate now s)

/-- A drained bucket at time 0. -/
def emptyBucket : RetryState :=
  { tokens := 0, lastRefill := 0, retryCount := 0, lastBackoffDelay := 0 }

/-- A full bucket at time 0 (the initial state of lines 99-104). -/
def fullBucket : RetryState :=
  { tokens := TOKEN_BUCKET_SIZE, lastRefill := 0, retryCount := 0, lastBackoffDelay := 0 }

/-- `n` rapid consecutive `getRetryToken` calls with no time elapsing between
them (each call happens at the state's own `lastRefill` timestamp), collecting
the returned booleans in call order. -/
def rapidConsumes (st : RetryState) : ℕ → RetryState × List Bool
  | 0 => (st, [])
  | n + 1 =>
    let r := rapidConsumes st n
    let c := getRetryToken r.1.lastRefill r.1
    (c.1, r.2 ++ [c.2])

/-- A fresh component state: no history, full bucket, empty queue. -/
def emptyWorld : World :=
  { articles := [], retryQueue := [], hasNextPage := true, attemptedPages := [],
    highestPageAttempted := 0, pageData := fun _ => none, retryMetrics := [],
    retryState := fullBucket }

/-- A component state in which page 1 already has a record with 3 attempts. -/
def worldPage1Attempts3 : World :=
  { emptyWorld with
      pageData := fun k =>
        if k = 1 then
          some { pageNum := 1, content := .err "boom", status := .error,
                 attempts := 3, lastAttemptTime := some 0 }
        else none }

/-! ## Theorems -/

/-- C1: the claim says the boolean returned by `getRetryToken` always agrees
with whether a token was consumed.  The code contradicts its own intent: with
0 tokens, `lastRefill = 0`, and the call made at `now = 1000` (one second
elapsed), the queued updater refills to 2 tokens and consumes one (leaving 1
token, `retryCount` bumped to 1 — a permit was granted), but the function
returns `retryState.tokens >= 1` on the stale closure value 0, i.e. `false`.
The caller treats the attempt as denied and enqueues it even though a token
was spent. -/
theorem getRetryToken_consumes_but_reports_denied :
    (getRetryToken 1000 emptyBucket).2 = false ∧
      (getRetryToken 1000 emptyBucket).1.tokens = 1 ∧
      (getRetryToken 1000 emptyBucket).1.retryCount = 1 := by
  norm_num [getRetryToken, getRetryTokenUpdate, emptyBucket,
    TOKEN_BUCKET_SIZE, TOKEN_BUCKET_RATE]

/-- C2: for every attempt count and every jitter draw in `[0, 1)`, the backoff
is at least 0 and strictly below `min(initialDelay * 2^attempt, maxDelay)`; in
particular it is strictly below `maxDelay`, and a zero draw yields delay 0. -/
theorem calculateBackoff_bounds (rand : ℚ) (h0 : 0 ≤ rand) (h1 : rand < 1)
    (attempt : ℕ) :
    0 ≤ calculateBackoff rand attempt ∧
      calculateBackoff rand attempt
        < min (INITIAL_RETRY_DELAY * 2 ^ attempt) MAX_RETRY_DELAY ∧
      calculateBackoff rand attempt < MAX_RETRY_DELAY ∧
      calculateBackoff 0 attempt = 0 := by
  have hpow : (0 : ℚ) < 2 ^ attempt := pow_pos (by norm_num) attempt
  have hexp : (0 : ℚ) < INITIAL_RETRY_DELAY * 2 ^ attempt := by
    have hI : (0 : ℚ) < INITIAL_RETRY_DELAY := by norm_num [INITIAL_RETRY_DELAY]
    exact mul_pos hI hpow
  have hc : (0 : ℚ) < min (INITIAL_RETRY_DELAY * 2 ^ attempt) MAX_RETRY_DELAY :=
    lt_min hexp (by norm_num [MAX_RETRY_DELAY])
  have hlt : calculateBackoff rand attempt
      < min (INITIAL_RETRY_DELAY * 2 ^ attempt) MAX_RETRY_DELAY := by
    have := mul_lt_mul_of_pos_right h1 hc
    simpa [calculateBackoff] using this
  refine ⟨?_, hlt, lt_of_lt_of_le hlt (min_le_right _ _), by simp [calculateBackoff]⟩
  simpa [calculateBackoff] using mul_nonneg h0 hc.le

/-- C2 witness: the bounds instantiated at `rand = 1/2`, `attempt = 3`. -/
theorem calculateBackoff_bounds_witness :
    0 ≤ calculateBackoff (1 / 2) 3 ∧
      calculateBackoff (1 / 2) 3
        < min (INITIAL_RETRY_DELAY * 2 ^ 3) MAX_RETRY_DELAY ∧
      calculateBackoff (1 / 2) 3 < MAX_RETRY_DELAY ∧
      calculateBackoff 0 3 = 0 :=
  calculateBackoff_bounds (1 / 2) (by norm_num) (by norm_num) 3

/-- C4 counterexample: enqueuing a second entry for page 2 does not remove the
first — after two `addToRetryQueue` calls for page 2, the queue holds two
page-2 entries, and the older one still carries its old attempt value, against
the claim that the queue keeps at most one entry per page with the most recent
attempt. -/
theorem enqueue_keeps_duplicates :
    addToRetryQueue (addToRetryQueue [] ⟨2, 0, 0⟩) ⟨2, 1, 500⟩
        = [⟨2, 0, 0⟩, ⟨2, 1, 500⟩] ∧
      (addToRetryQueue (addToRetryQueue [] ⟨2, 0, 0⟩) ⟨2, 1, 500⟩).countP
        (fun e => e.pageNum == 2) = 2 := by
  constructor <;> rfl

/-- C4 (amended): `addToRetryQueue` appends at the tail without superseding —
each call grows the queue by exactly one, the new entry becomes the last, and
the number of entries for any page number grows by one whenever the new entry
is for that page (so duplicates per page accumulate rather than replace). -/
theorem addToRetryQueue_appends (q : List QueuedRetry) (r : QueuedRetry) (p : ℕ) :
    (addToRetryQueue q r).length = q.length + 1 ∧
      (addToRetryQueue q r).getLast? = some r ∧
      (addToRetryQueue q r).countP (fun e => e.pageNum == p)
        = q.countP (fun e => e.pageNum == p) + (if r.pageNum = p then 1 else 0) := by
  refine ⟨by simp [addToRetryQueue], by simp [addToRetryQueue], ?_⟩
  by_cases hp : r.pageNum = p <;>
    simp [addToRetryQueue, List.countP_append, List.countP_cons, hp]

/-- C5: every token-bucket state reachable from the initial full bucket by
refill ticks and consume calls (with time moving forward) keeps
`0 ≤ tokens ≤ TOKEN_BUCKET_SIZE`. -/
theorem token_bucket_invariant (s : RetryState) (hs : ReachableRS s) :
    0 ≤ s.tokens ∧ s.tokens ≤ TOKEN_BUCKET_SIZE := by
  induction hs with
  | init t => constructor <;> norm_num [TOKEN_BUCKET_SIZE]
  | refill now h hs ih =>
    rename_i s'
    have hel : (0 : ℚ) ≤ (now - s'.lastRefill) / 1000 * TOKEN_BUCKET_RATE := by
      have : (0 : ℚ) ≤ now - s'.lastRefill := by linarith
      have h1000 : (0 : ℚ) ≤ (now - s'.lastRefill) / 1000 := by positivity
      have hr : (0 : ℚ) ≤ TOKEN_BUCKET_RATE := by norm_num [TOKEN_BUCKET_RATE]
      exact mul_nonneg h1000 hr
    refine ⟨?_, ?_⟩
    · simp only [refillTick]
      exact le_min (by norm_num [TOKEN_BUCKET_SIZE]) (by linarith [ih.1])
    · simp only [refillTick]
      exact min_le_left _ _
  | consume now h hs ih =>
    rename_i s'
    simp only [getRetryTokenUpdate]
    split
    · rename_i hge
      have hub : min TOKEN_BUCKET_SIZE
          (s'.tokens + (now - s'.lastRefill) / 1000 * TOKEN_BUCKET_RATE)
          ≤ TOKEN_BUCKET_SIZE := min_le_left _ _
      constructor
      · simp only
        linarith
      · simp only
        have : (0 : ℚ) ≤ TOKEN_BUCKET_SIZE := by norm_num [TOKEN_BUCKET_SIZE]
        linarith
    · exact ih

/-- C5 witness: the invariant at the initial state. -/
theorem token_bucket_invariant_witness :
    0 ≤ ({ tokens := TOKEN_BUCKET_SIZE, lastRefill := 0, retryCount := 0,
           lastBackoffDelay := 0 } : RetryState).tokens ∧
      ({ tokens := TOKEN_BUCKET_SIZE, lastRefill := 0, retryCount := 0,
         lastBackoffDelay := 0 } : RetryState).tokens ≤ TOKEN_BUCKET_SIZE :=
  token_bucket_invariant _ (ReachableRS.init 0)

/-- C9 counterexample: starting from the full bucket (capacity 10), the 7th
rapid consecutive consume is granted, not denied — all of the first 7 rapid
consumes succeed, against the claim that exactly 6 succeed before the 7th is
denied. -/
theorem seventh_rapid_consume_granted :
    (rapidConsumes fullBucket 7).2 = List.replicate 7 true := by
  norm_num [rapidConsumes, getRetryToken, getRetryTokenUpdate, fullBucket,
    TOKEN_BUCKET_SIZE, TOKEN_BUCKET_RATE]
  decide

/-- C9 (amended): with capacity 10 and rate 2 tokens/second, starting from 0
tokens and calling `getRetryToken` after 3 seconds refills to 6 tokens and
consumes one, leaving 5 with the granted-permit counter bumped — though the
call reports `false` because of the stale closure read (see C1); and starting
from full capacity, exactly 10 rapid consecutive consumes are granted before
the 11th is denied. -/
theorem token_bucket_scenario :
    (getRetryToken 3000 emptyBucket).1.tokens = 5 ∧
      (getRetryToken 3000 emptyBucket).1.retryCount = 1 ∧
      (getRetryToken 3000 emptyBucket).2 = false ∧
      (rapidConsumes fullBucket 11).2 = List.replicate 10 true ++ [false] := by
  refine ⟨?_, ?_, ?_, ?_⟩
  · norm_num [getRetryToken, getRetryTokenUpdate, emptyBucket,
      TOKEN_BUCKET_SIZE, TOKEN_BUCKET_RATE]
  · norm_num [getRetryToken, getRetryTokenUpdate, emptyBucket,
      TOKEN_BUCKET_SIZE, TOKEN_BUCKET_RATE]
  · norm_num [getRetryToken, emptyBucket]
  · norm_num [rapidConsumes, getRetryToken, getRetryTokenUpdate, fullBucket,
      TOKEN_BUCKET_SIZE, TOKEN_BUCKET_RATE]
    decide

/-! ### Helper lemmas about the catch block -/

/-- The catch block never touches the `pageData` map. -/
theorem catchBlock_pageData_eq (w : World) (ct : ℚ) (p r : ℕ) (now rand2 : ℚ)
    (it : Bool) (msg : String) :
    (catchBlock w ct p r now rand2 it msg).1.pageData = w.pageData := by
  simp only [catchBlock]
  split_ifs <;> rfl

/-- The catch block is only reached after the HTTP request was issued; it
passes the `attempted` flag through as `true` on every branch. -/
theorem catchBlock_attempted_eq (w : World) (ct : ℚ) (p r : ℕ) (now rand2 : ℚ)
    (it : Bool) (msg : String) :
    (catchBlock w ct p r now rand2 it msg).2.1 = true := by
  simp only [catchBlock]
  split_ifs <;> rfl

/-- The catch block touches the token bucket exactly when a retry is still
allowed and the failure is not classified rate-limited (the `||`
short-circuit); in that case it applies the consume updater, else it leaves
the bucket alone. -/
theorem catchBlock_retryState_eq (w : World) (ct : ℚ) (p r : ℕ) (now rand2 : ℚ)
    (it : Bool) (msg : String) :
    (catchBlock w ct p r now rand2 it msg).1.retryState
      = if r < MAX_RETRIES ∧ containsRateLimited msg = false then
          getRetryTokenUpdate now w.retryState
        else w.retryState := by
  simp only [catchBlock]
  split_ifs with h1 h2 h3 <;> simp_all

/-- The catch block never touches `hasNextPage` or `articles`. -/
theorem catchBlock_display_eq (w : World) (ct : ℚ) (p r : ℕ) (now rand2 : ℚ)
    (it : Bool) (msg : String) :
    (catchBlock w ct p r now rand2 it msg).1.hasNextPage = w.hasNextPage ∧
      (catchBlock w ct p r now rand2 it msg).1.articles = w.articles := by
  simp only [catchBlock]
  split_ifs <;> exact ⟨rfl, rfl⟩

/-- On the text `'network error'` the rate-limited classifier is false. -/
theorem containsRateLimited_network_error :
    containsRateLimited "network error" = false := by decide

/-- On the text `'aborted'` the rate-limited classifier is false. -/
theorem containsRateLimited_aborted :
    containsRateLimited "aborted" = false := by decide

/-! ### C3 -/

/-- C3 counterexample: page 4's terminal failure (a transport failure at
`retryCount = MAX_RETRIES`, tokens available) schedules nothing and queues
nothing, but also records no terminal error message: the `pageData` map still
has no record for page 4 at all — there is no `failed` record and no retained
message, against the claim that reaching `maxRetries` transitions the page to
a failed state with a recorded terminal error message. -/
theorem terminal_failure_records_no_message :
    (fetchArticlesStep emptyWorld 4 MAX_RETRIES 1000 0 0
        (.thrown false "network error")).1.pageData 4 = none ∧
      (fetchArticlesStep emptyWorld 4 MAX_RETRIES 1000 0 0
        (.thrown false "network error")).2.2 = none ∧
      (fetchArticlesStep emptyWorld 4 MAX_RETRIES 1000 0 0
        (.thrown false "network error")).1.retryQueue = [] := by
  have hguard : ¬ (MAX_RETRIES > 0 ∧ ¬ (1 : ℚ) ≤ emptyWorld.retryState.tokens) := by
    norm_num [emptyWorld, fullBucket, TOKEN_BUCKET_SIZE]
  refine ⟨?_, ?_, ?_⟩ <;>
    norm_num [fetchArticlesStep, catchBlock, hguard, emptyWorld, fullBucket,
      containsRateLimited_network_error, MAX_RETRIES, TOKEN_BUCKET_SIZE]

/-- C3 (amended): when a fetch attempt fails with `retryCount ≥ maxRetries`,
the catch block appends the failure to the attempts log but schedules no
retry, queues nothing, and leaves the bucket alone — the page is never
auto-retried again; however no terminal error message is recorded (the page
record is only written when a response body was parsed, so a terminal
transport failure leaves it untouched — see the counterexample).  Below
`maxRetries`, a failure that is not classified rate-limited and sees a granted
token schedules a retry with `retryCount + 1`, so a chain of such direct
retries reaches the terminal case after at most `maxRetries + 1` failed
attempts; queued retries, in contrast, keep their `retryCount` unchanged. -/
theorem failure_terminal_no_retry (w : World) (closureTokens : ℚ)
    (pageNum retryCount : ℕ) (now rand2 : ℚ) (isTimeout : Bool) (msg : String)
    (h : MAX_RETRIES ≤ retryCount) :
    (catchBlock w closureTokens pageNum retryCount now rand2 isTimeout msg).2.2
        = none ∧
      (catchBlock w closureTokens pageNum retryCount now rand2 isTimeout msg).1.retryQueue
        = w.retryQueue ∧
      (catchBlock w closureTokens pageNum retryCount now rand2 isTimeout msg).1.retryState
        = w.retryState ∧
      (catchBlock w closureTokens pageNum retryCount now rand2 isTimeout msg).1.attemptedPages
        = w.attemptedPages ++ [⟨pageNum, .error, now,
            some (if isTimeout then 408
                  else if containsRateLimited msg then 429 else 500)⟩] ∧
      (∀ r, r < MAX_RETRIES → containsRateLimited msg = false → 1 ≤ closureTokens →
        (catchBlock w closureTokens pageNum r now rand2 isTimeout msg).2.2
          = some (pageNum, r + 1, calculateBackoff rand2 r)) := by
  have hnot : ¬ retryCount < MAX_RETRIES := Nat.not_lt.mpr h
  refine ⟨?_, ?_, ?_, ?_, ?_⟩
  · simp [catchBlock, hnot]
  · simp [catchBlock, hnot]
  · simp [catchBlock, hnot]
  · simp [catchBlock, hnot]
  · intro r hr hmsg htok
    simp [catchBlock, hr, hmsg, htok]

/-- C3 witness: the amended statement at page 4, `retryCount = 5`, with a
plain network failure and a full closure token count. -/
theorem failure_terminal_no_retry_witness :
    (catchBlock emptyWorld 10 4 5 1000 0 false "network error").2.2 = none ∧
      (catchBlock emptyWorld 10 4 5 1000 0 false "network error").1.retryQueue
        = emptyWorld.retryQueue ∧
      (catchBlock emptyWorld 10 4 5 1000 0 false "network error").1.retryState
        = emptyWorld.retryState ∧
      (catchBlock emptyWorld 10 4 5 1000 0 false "network error").1.attemptedPages
        = emptyWorld.attemptedPages ++ [⟨4, .error, 1000,
            some (if false then 408
                  else if containsRateLimited "network error" then 429 else 500)⟩] ∧
      (∀ r, r < MAX_RETRIES → containsRateLimited "network error" = false →
        (1 : ℚ) ≤ 10 →
        (catchBlock emptyWorld 10 4 r 1000 0 false "network error").2.2
          = some (4, r + 1, calculateBackoff 0 r)) :=
  failure_terminal_no_retry emptyWorld 10 4 5 1000 0 false "network error"
    (by norm_num [MAX_RETRIES])

/-! ### C6 -/

/-- C6 counterexample: a timeout attempt for page 1 (which already has a
record with 3 attempts, tokens available so the fetch proceeds) leaves
`pageData` entirely untouched — the attempt count stays 3 instead of
increasing to 4, against the claim that `attempts` strictly increases by 1 on
every fetch attempt including timeout and transport failures. -/
theorem transport_failure_skips_attempts :
    ((fetchArticlesStep worldPage1Attempts3 1 1 1000 0 0
        (.thrown true "aborted")).1.pageData 1).map PageData.attempts
      = some 3 := by
  norm_num [fetchArticlesStep, catchBlock, worldPage1Attempts3, emptyWorld,
    fullBucket, containsRateLimited_aborted, MAX_RETRIES, TOKEN_BUCKET_SIZE]

/-- C6 (amended): `PageRecord.attempts` increases by exactly 1 on every fetch
attempt that receives a parsed response body (success or structured error),
but an attempt that ends in a timeout or transport failure leaves the
`pageData` map — and hence `attempts` — completely unchanged; the count never
decreases, and an explicit fresh re-request does not reset it (the updater
always continues from the stored value). -/
theorem attempts_increment_on_response (w : World) (pageNum retryCount : ℕ)
    (now rand1 rand2 : ℚ) (payload : Content) (code : ℕ)
    (h : retryCount = 0 ∨ 1 ≤ w.retryState.tokens) :
    ((fetchArticlesStep w pageNum retryCount now rand1 rand2
          (.response payload code)).1.pageData pageNum).map PageData.attempts
        = some (((w.pageData pageNum).map PageData.attempts).getD 0 + 1) ∧
      ∀ isTimeout msg,
        (fetchArticlesStep w pageNum retryCount now rand1 rand2
            (.thrown isTimeout msg)).1.pageData = w.pageData := by
  have hguard : ¬ (retryCount > 0 ∧ ¬ (1 : ℚ) ≤ w.retryState.tokens) := by
    rcases h with h | h
    · simp [h]
    · intro hc
      exact hc.2 h
  constructor
  · rcases payload with resp | msg
    · simp only [fetchArticlesStep, if_neg hguard]
      cases hpd : w.pageData pageNum <;>
        simp [setPageData, hpd]
    · simp only [fetchArticlesStep, if_neg hguard, catchBlock_pageData_eq]
      cases hpd : w.pageData pageNum <;>
        simp [catchBlock_pageData_eq, setPageData, hpd]
  · intro isTimeout msg
    simp only [fetchArticlesStep, if_neg hguard, catchBlock_pageData_eq]

/-- C6 witness: the amended statement at the concrete state with 3 prior
attempts for page 1 (a structured-error response bumps the count to 4, a
thrown failure leaves the map untouched). -/
theorem attempts_increment_on_response_witness :
    ((fetchArticlesStep worldPage1Attempts3 1 1 2000 0 0
          (.response (.err "boom") 500)).1.pageData 1).map PageData.attempts
        = some (((worldPage1Attempts3.pageData 1).map PageData.attempts).getD 0 + 1) ∧
      ∀ isTimeout msg,
        (fetchArticlesStep worldPage1Attempts3 1 1 2000 0 0
            (.thrown isTimeout msg)).1.pageData = worldPage1Attempts3.pageData :=
  attempts_increment_on_response worldPage1Attempts3 1 1 2000 0 0 (.err "boom") 500
    (Or.inr (by norm_num [worldPage1Attempts3, emptyWorld, fullBucket, TOKEN_BUCKET_SIZE]))

/-! ### C7 -/

/-- C7: one drain tick with a non-empty queue and at least one token takes the
head (earliest queued) entry, removes it (every queue entry for that page is
filtered out, so the head itself is gone; when the page had no duplicate the
queue is exactly the old tail), hands the fetch the stored `retryCount`
unchanged, and appends one metric whose `delay` is the time the entry spent
waiting in the queue (`now - queuedAt`), not a computed backoff. -/
theorem processQueueTick_head_cycle (w : World) (nr : QueuedRetry)
    (t : List QueuedRetry) (now : ℚ) (hq : w.retryQueue = nr :: t)
    (htok : 1 ≤ w.retryState.tokens) :
    (processQueueTick w now).2 = some (nr.pageNum, nr.retryCount) ∧
      (processQueueTick w now).1.retryQueue
        = removeFromRetryQueue (nr :: t) nr.pageNum ∧
      (∀ e ∈ (processQueueTick w now).1.retryQueue, e.pageNum ≠ nr.pageNum) ∧
      ((∀ e ∈ t, e.pageNum ≠ nr.pageNum) →
        (processQueueTick w now).1.retryQueue = t) ∧
      (processQueueTick w now).1.retryMetrics
        = w.retryMetrics
            ++ [⟨now, now - nr.queuedAt, nr.pageNum, nr.retryCount + 1, some 429⟩] := by
  have hstep : processQueueTick w now
      = ({ w with
            retryQueue := removeFromRetryQueue w.retryQueue nr.pageNum,
            retryMetrics := w.retryMetrics ++
              [⟨now, now - nr.queuedAt, nr.pageNum, nr.retryCount + 1, some 429⟩] },
         some (nr.pageNum, nr.retryCount)) := by
    simp only [processQueueTick, hq, if_pos htok]
  refine ⟨by simp [hstep], ?_, ?_, ?_, by simp [hstep]⟩
  · simp [hstep, hq]
  · intro e he
    simp only [hstep, hq] at he
    simp only [removeFromRetryQueue, List.mem_filter] at he
    simpa using he.2
  · intro hnodup
    simp only [hstep, hq, removeFromRetryQueue]
    rw [List.filter_cons_of_neg (by simp)]
    exact List.filter_eq_self.mpr fun e he => by simpa using hnodup e he

/-- A state whose queue holds page 2 (queued at time 0 with `retryCount = 1`)
and page 3 behind it. -/
def queuedWorld : World :=
  { emptyWorld with retryQueue := [⟨2, 1, 0⟩, ⟨3, 0, 100⟩] }

/-- C7 witness: the drain tick at `now = 1500` on the concrete queued state:
page 2 is dequeued once with `retryCount = 1` preserved and the metric records
the 1500 ms it waited. -/
theorem processQueueTick_head_cycle_witness :
    (processQueueTick queuedWorld 1500).2 = some ((2 : ℕ), (1 : ℕ)) ∧
      (processQueueTick queuedWorld 1500).1.retryQueue
        = removeFromRetryQueue [⟨2, 1, 0⟩, ⟨3, 0, 100⟩] 2 ∧
      (∀ e ∈ (processQueueTick queuedWorld 1500).1.retryQueue,
        e.pageNum ≠ (⟨2, 1, 0⟩ : QueuedRetry).pageNum) ∧
      ((∀ e ∈ [(⟨3, 0, 100⟩ : QueuedRetry)],
          e.pageNum ≠ (⟨2, 1, 0⟩ : QueuedRetry).pageNum) →
        (processQueueTick queuedWorld 1500).1.retryQueue = [⟨3, 0, 100⟩]) ∧
      (processQueueTick queuedWorld 1500).1.retryMetrics
        = queuedWorld.retryMetrics
            ++ [⟨1500, 1500 - 0, 2, 1 + 1, some 429⟩] :=
  processQueueTick_head_cycle queuedWorld ⟨2, 1, 0⟩ [⟨3, 0, 100⟩] 1500 rfl
    (by norm_num [queuedWorld, emptyWorld, fullBucket, TOKEN_BUCKET_SIZE])

/-! ### C8 -/

/-- C8 counterexample: page 2's first try (a fresh request) times out — which
never touches `pageData` — and its scheduled retry succeeds: the success write
leaves `attempts = 1` even though the attempts log shows the page was tried
twice, so the recorded attempts value does not reflect the total number of
tries including prior failures. -/
theorem success_attempts_miss_thrown_tries :
    (((fetchArticlesStep
          (fetchArticlesStep emptyWorld 2 0 1000 0 0 (.thrown true "aborted")).1
          2 1 2000 0 0 (.response (.api ⟨[], true, 2, 12⟩) 200)).1.pageData 2).map
        PageData.attempts) = some 1 ∧
      (((fetchArticlesStep
          (fetchArticlesStep emptyWorld 2 0 1000 0 0 (.thrown true "aborted")).1
          2 1 2000 0 0 (.response (.api ⟨[], true, 2, 12⟩) 200)).1.pageData 2).map
        PageData.status) = some .success ∧
      ((fetchArticlesStep
          (fetchArticlesStep emptyWorld 2 0 1000 0 0 (.thrown true "aborted")).1
          2 1 2000 0 0 (.response (.api ⟨[], true, 2, 12⟩) 200)).1.attemptedPages).length
        = 2 := by
  refine ⟨?_, ?_, ?_⟩ <;>
    norm_num [fetchArticlesStep, catchBlock, emptyWorld, fullBucket, setPageData,
      containsRateLimited_aborted, contentStatus, getRetryTokenUpdate,
      MAX_RETRIES, TOKEN_BUCKET_SIZE, TOKEN_BUCKET_RATE]

/-- C8 (amended): when the awaited call resolves to a body without an error
indicator, the controller overwrites the page's record with status `success`
and an attempt count one above the *stored* one — which counts only prior
tries whose response body was parsed (e.g. structured-error failures), not
prior timeout or transport failures (see C6) — removes every retry-queue
entry for that page, and sets the has-next-page flag from the response's
`is_next` field. -/
theorem success_path_updates (w : World) (pageNum retryCount : ℕ)
    (now rand1 rand2 : ℚ) (resp : ApiResponse) (code : ℕ)
    (h : retryCount = 0 ∨ 1 ≤ w.retryState.tokens) :
    (fetchArticlesStep w pageNum retryCount now rand1 rand2
          (.response (.api resp) code)).1.pageData pageNum
        = some { pageNum := pageNum, content := .api resp, status := .success,
                 attempts := ((w.pageData pageNum).map PageData.attempts).getD 0 + 1,
                 lastAttemptTime := some now } ∧
      (fetchArticlesStep w pageNum retryCount now rand1 rand2
          (.response (.api resp) code)).1.hasNextPage = resp.is_next ∧
      (fetchArticlesStep w pageNum retryCount now rand1 rand2
          (.response (.api resp) code)).1.retryQueue
        = removeFromRetryQueue w.retryQueue pageNum ∧
      ∀ e ∈ (fetchArticlesStep w pageNum retryCount now rand1 rand2
          (.response (.api resp) code)).1.retryQueue, e.pageNum ≠ pageNum := by
  have hguard : ¬ (retryCount > 0 ∧ ¬ (1 : ℚ) ≤ w.retryState.tokens) := by
    rcases h with h | h
    · simp [h]
    · intro hc
      exact hc.2 h
  refine ⟨?_, ?_, ?_, ?_⟩
  · simp only [fetchArticlesStep, if_neg hguard]
    cases hpd : w.pageData pageNum <;>
      simp [setPageData, contentStatus, hpd]
  · simp only [fetchArticlesStep, if_neg hguard]
  · simp only [fetchArticlesStep, if_neg hguard]
  · intro e he
    simp only [fetchArticlesStep, if_neg hguard, removeFromRetryQueue,
      List.mem_filter] at he
    simpa using he.2

/-- C8 witness: a successful retry of page 2 (queued after a thrown failure,
so its map entry is still absent) writes a success record with the stored
count 0 bumped to 1, drops its queue entry, and copies `is_next = false` into
the has-next-page flag. -/
theorem success_path_updates_witness :
    (fetchArticlesStep queuedWorld 2 1 2000 0 0
          (.response (.api ⟨[], false, 2, 12⟩) 200)).1.pageData 2
        = some { pageNum := 2, content := .api ⟨[], false, 2, 12⟩,
                 status := .success,
                 attempts := ((queuedWorld.pageData 2).map PageData.attempts).getD 0 + 1,
                 lastAttemptTime := some 2000 } ∧
      (fetchArticlesStep queuedWorld 2 1 2000 0 0
          (.response (.api ⟨[], false, 2, 12⟩) 200)).1.hasNextPage
        = (⟨[], false, 2, 12⟩ : ApiResponse).is_next ∧
      (fetchArticlesStep queuedWorld 2 1 2000 0 0
          (.response (.api ⟨[], false, 2, 12⟩) 200)).1.retryQueue
        = removeFromRetryQueue queuedWorld.retryQueue 2 ∧
      ∀ e ∈ (fetchArticlesStep queuedWorld 2 1 2000 0 0
          (.response (.api ⟨[], false, 2, 12⟩) 200)).1.retryQueue,
        e.pageNum ≠ 2 :=
  success_path_updates queuedWorld 2 1 2000 0 0 ⟨[], false, 2, 12⟩ 200
    (Or.inr (by norm_num [queuedWorld, emptyWorld, fullBucket, TOKEN_BUCKET_SIZE]))

/-! ### C10 -/

/-- C10: a fresh page request (`retryCount = 0`) always issues its HTTP call —
it is never early-returned or queued by local rate limiting; on a success
response the token bucket is untouched and the queue only loses entries for
that page; and for either kind of failure the bucket is touched only inside
the failure handler (and even there only when the failure is not classified
rate-limited, because of the `||` short-circuit). -/
theorem fresh_request_skips_token_guard (w : World) (pageNum : ℕ)
    (now rand1 rand2 : ℚ) :
    (∀ outcome,
        (fetchArticlesStep w pageNum 0 now rand1 rand2 outcome).2.1 = true) ∧
      (∀ resp code,
        (fetchArticlesStep w pageNum 0 now rand1 rand2
            (.response (.api resp) code)).1.retryState = w.retryState ∧
        (fetchArticlesStep w pageNum 0 now rand1 rand2
            (.response (.api resp) code)).1.retryQueue
          = removeFromRetryQueue w.retryQueue pageNum) ∧
      (∀ isTimeout msg,
        (fetchArticlesStep w pageNum 0 now rand1 rand2
            (.thrown isTimeout msg)).1.retryState
          = if containsRateLimited msg then w.retryState
            else getRetryTokenUpdate now w.retryState) ∧
      (∀ msg code,
        (fetchArticlesStep w pageNum 0 now rand1 rand2
            (.response (.err msg) code)).1.retryState
          = if containsRateLimited msg then w.retryState
            else getRetryTokenUpdate now w.retryState) := by
  refine ⟨?_, ?_, ?_, ?_⟩
  · intro outcome
    rcases outcome with ⟨payload, code⟩ | ⟨isTimeout, msg⟩
    · rcases payload with resp | msg
      · simp [fetchArticlesStep]
      · simp [fetchArticlesStep, catchBlock_attempted_eq]
    · simp [fetchArticlesStep, catchBlock_attempted_eq]
  · intro resp code
    constructor <;> simp [fetchArticlesStep]
  · intro isTimeout msg
    simp only [fetchArticlesStep]
    rw [if_neg (by simp)]
    simp only [catchBlock_retryState_eq]
    cases hm : containsRateLimited msg <;>
      simp [hm, MAX_RETRIES]
  · intro msg code
    simp only [fetchArticlesStep]
    rw [if_neg (by simp)]
    simp only [catchBlock_retryState_eq]
    cases hm : containsRateLimited msg <;>
      simp [hm, MAX_RETRIES]
